import Mathlib

set_option linter.unusedVariables false
set_option maxRecDepth 4000

/-! Shallow embedding of the GoTrading SDK's post-order dispatcher
(`PostOrderHandler` in src/unnamed/part_001), its backend `post` helper, and
spec-level models of `bulkListing` / `prepareListing` (whose implementations
are not under src/; only their tests are), together with theorems checking
the specification's claims against these definitions.

JavaScript strings such as hex signatures and Merkle-proof entries are
embedded as byte lists (`List Nat`); JSON payload objects are embedded as
structures whose `rest` field collects the fields the dispatcher never
touches (preserved by object spread in the source). -/

deriving instance DecidableEq for Except

/-- Marketplace protocol tag (the `OrderKind` enum of the source types). -/
inductive OrderKind
  | seaportV15
  | looksRareV2
  | x2y2
  | blur
deriving DecidableEq, Repr

/-- Rendering of an order kind, used in the dispatcher's error messages
(`'unsupported orderKind ' + params.order.kind`). -/
def OrderKind.str : OrderKind → String
  | .seaportV15 => "seaport-v1.5"
  | .looksRareV2 => "looks-rare-v2"
  | .x2y2 => "x2y2"
  | .blur => "blur"

/-- The chain enum of src/src/core/interface.ts (`EVMChain.ETH = 'eth'`). -/
inductive EVMChain
  | eth
deriving DecidableEq, Repr

def EVMChain.str : EVMChain → String
  | .eth => "eth"

/-- The marketplace-specific `order.data` payload: the four signature
representations the dispatcher may write, plus the remaining fields (`rest`),
which the dispatcher never touches and object spread preserves. -/
structure OrderData where
  signature : Option (List Nat) := none
  v : Option Nat := none
  r : Option (List Nat) := none
  s : Option (List Nat) := none
  rest : List (String × String) := []
deriving DecidableEq, Repr, Inhabited

/-- `Order = { kind, data }` (spec §3). -/
structure Order where
  kind : OrderKind
  data : OrderData
deriving DecidableEq, Repr

instance : Inhabited Order := ⟨⟨OrderKind.seaportV15, {}⟩⟩

/-- Payload of `bulkData.data`: `{ orderIndex, merkleProof }`. Proof entries
are byte strings. -/
structure BulkDataPayload where
  orderIndex : Nat
  merkleProof : List (List Nat)
deriving DecidableEq, Repr

/-- `BulkData = { kind, data }`; the source compares `bulkData?.kind` against
the string `'seaport-v1.5'`. -/
structure BulkData where
  kind : String
  data : BulkDataPayload
deriving DecidableEq, Repr

/-- `PostOrderReq = { order, signature?, bulkData?, extraArgs: { version } }`. -/
structure PostOrderReq where
  order : Order
  signature : Option (List Nat) := none
  bulkData : Option BulkData := none
  extraArgsVersion : String
deriving DecidableEq, Repr

/-- The error taxonomy of the SDK (spec §7): `InvalidParamError` carries the
offending parameter name and a reason; `AggregatorApiException` carries
`(msg, code, path)`. -/
inductive SdkError
  | invalidParam (param : String) (reason : String)
  | aggregatorApi (msg : String) (code : String) (path : String)
deriving DecidableEq, Repr

/-- Modelled from the spec: the exceptions module (`@/exceptions`) is not
under src/. The `InvalidParamError` message format is fixed by the spec (§8)
and by the test src/src/core/v1/__test__/prepare.test.ts, which expects the
thrown value to equal "The param 'nfts' is invalid. nfts should not be empty". -/
def SdkError.message : SdkError → String
  | .invalidParam p reason => "The param '" ++ p ++ "' is invalid. " ++ reason
  | .aggregatorApi msg _ _ => msg

/-- Result of `splitSignature`: the three canonical fields `v`, `r`, `s`. -/
structure SplitSig where
  v : Nat
  r : List Nat
  s : List Nat
deriving DecidableEq, Repr

/-- Modelled from the spec: boundary model of the external ethers
`splitSignature` (spec §6): an ECDSA signature is a 65-byte string
`r(32) || s(32) || v(1)`, split into the three fields; malformed input
(wrong length) is rejected, which the dispatcher converts into
`InvalidParamError('signature', …)`. -/
def splitSignature (sig : List Nat) : Option SplitSig :=
  if sig.length = 65 then
    some { v := (sig.drop 64).headD 0, r := sig.take 32, s := (sig.drop 32).take 32 }
  else
    none

/-- One 32-byte big-endian EVM word. -/
def word32 (n : Nat) : List Nat :=
  (List.range 32).map fun i => n / 256 ^ (31 - i) % 256

/-- Modelled from the spec: `Models.SeaportV1D5.Utils.encodeBulkOrderProofAndSignature`
is imported from a repository module ('./utils') that is not under src/. Per
the spec (§4.2, §6) the packed bulk-signature wire format is a
self-describing length-prefixed Merkle-proof array followed by the 65-byte
signature, with the order index packed alongside as a leading word. The
encoding is a pure function of `(orderIndex, merkleProof, signature)`. -/
def encodeBulkOrderProofAndSignature (orderIndex : Nat) (merkleProof : List (List Nat))
    (signature : List Nat) : List Nat :=
  word32 orderIndex ++ word32 merkleProof.length ++ merkleProof.flatten ++ signature

/-- The `ListingIndexerConfig` fields the dispatcher reads: backend
credentials/location plus the three optional marketplace API-key configs
(opaque tokens at this boundary). -/
structure ListingIndexerConfig where
  apiKey : String
  baseUrl : Option String := none
  chain : Option EVMChain := none
  openSeaApiKeyConfig : Option String := none
  looksRareApiKeyConfig : Option String := none
  x2y2ApiKeyConfig : Option String := none
deriving DecidableEq, Repr

/-- Modelled from the spec: `BASE_URL` is imported from '@/common', which is
not under src/; it is the default backend base URL used when
`config.baseUrl` is absent. Its concrete value is not constrained by any
claim. -/
def BASE_URL : String := "https://data-api.nftgo.io"

/-- A protocol handler as registered in the dispatcher's map: the source
constructs `new SeaportV1D5Handler(client, keyConfig)` (resp. LooksRareV2 /
X2Y2) only when that marketplace's API-key config was supplied. The handler's
own network behaviour is abstracted by the `handlerRun` oracle given to
`handle`. -/
structure RegisteredHandler where
  kind : OrderKind
  apiKeyConfig : String
deriving DecidableEq, Repr

/-- The dispatcher's private state: the injected config and the
kind-to-handler map (a JS `Map`, embedded as an association list). -/
structure PostOrderHandlerState where
  config : ListingIndexerConfig
  handlers : List (OrderKind × RegisteredHandler)
deriving DecidableEq, Repr

/-- The `PostOrderHandler` constructor: registers a handler for SeaportV15,
LooksRareV2 and X2Y2 exactly when the corresponding API-key config is
present (src/unnamed/part_001, lines 23-35). This is the only place the map
is written. -/
def buildHandlers (config : ListingIndexerConfig) : List (OrderKind × RegisteredHandler) :=
  (match config.openSeaApiKeyConfig with
    | some k => [(OrderKind.seaportV15, { kind := OrderKind.seaportV15, apiKeyConfig := k })]
    | none => []) ++
  (match config.looksRareApiKeyConfig with
    | some k => [(OrderKind.looksRareV2, { kind := OrderKind.looksRareV2, apiKeyConfig := k })]
    | none => []) ++
  (match config.x2y2ApiKeyConfig with
    | some k => [(OrderKind.x2y2, { kind := OrderKind.x2y2, apiKeyConfig := k })]
    | none => [])

def PostOrderHandler.new (config : ListingIndexerConfig) : PostOrderHandlerState :=
  { config := config, handlers := buildHandlers config }

/-- The backend response envelope `{ code, msg, data }`. -/
structure StatusResponse (α : Type) where
  code : String
  msg : String
  data : α
deriving DecidableEq, Repr

/-- One HTTP POST request as handed to the injected `HTTPClient`:
`(url, body, headers)`. -/
structure HttpRequest (α : Type) where
  url : String
  body : α
  headers : List (String × String)
deriving DecidableEq, Repr

/-- The private `url` getter:
`(config?.baseUrl ?? BASE_URL) + '/aggregator' + '/v1' + '/' + (config?.chain ?? EVMChain.ETH) + '/nft'`. -/
def PostOrderHandler.url (config : ListingIndexerConfig) : String :=
  (config.baseUrl.getD BASE_URL) ++ "/aggregator" ++ "/v1" ++ "/" ++
    (config.chain.getD EVMChain.eth).str ++ "/nft"

/-- The private `headers` getter:
`{ 'X-API-KEY': this.config.apiKey, 'X-FROM': 'js_sdk' }`. -/
def PostOrderHandler.headers (config : ListingIndexerConfig) : List (String × String) :=
  [("X-API-KEY", config.apiKey), ("X-FROM", "js_sdk")]

/-- The private `post<ResData, Req>(path, params)` (src/unnamed/part_001,
lines 116-128): sends `(url + path, params, headers)` through the injected
client, then returns `data` when the envelope code is 'SUCCESS' and throws
`AggregatorApiException(msg, code, path)` otherwise. The request actually
handed to the client is returned alongside the outcome so that theorems can
speak about it. -/
def PostOrderHandler.post {α β : Type}
    (config : ListingIndexerConfig)
    (client : String → α → List (String × String) → StatusResponse β)
    (path : String) (params : α) :
    HttpRequest α × Except SdkError β :=
  let req : HttpRequest α := ⟨PostOrderHandler.url config ++ path, params, PostOrderHandler.headers config⟩
  (req,
    if (client req.url req.body req.headers).code = "SUCCESS" then
      Except.ok (client req.url req.body req.headers).data
    else
      Except.error (SdkError.aggregatorApi
        (client req.url req.body req.headers).msg
        (client req.url req.body req.headers).code path))

/-- An observable action of one `handle` call: an HTTP POST through the
backend `post` helper, or an invocation of a registered protocol handler's
`handle(order)`. -/
inductive HandleEffect
  | httpPost (req : HttpRequest PostOrderReq)
  | handlerCall (kind : OrderKind) (order : Order)
deriving DecidableEq, Repr

/-- Full outcome of one `handle` call: the effects performed, the settled
value of the returned promise (`some "blur"` models the `{message: 'blur'}`
return of the Blur branch; `none` models `undefined`), the request object
after the in-place mutations of `params.order.data`, and the handler map
after the call. -/
structure HandleOutput where
  effects : List HandleEffect
  result : Except SdkError (Option String)
  finalParams : PostOrderReq
  finalHandlers : List (OrderKind × RegisteredHandler)
deriving DecidableEq, Repr

/-- The `{...params.order.data, signature, v, r, s}` merge followed by the
handler invocation, shared verbatim by the `v3` branch (lines 52-67) and the
non-bulk `v4` branch (lines 81-98) of the source `handle`. The source does
not await `handler.handle(params.order)`, so the invocation is recorded as
an effect and its outcome `hres` is discarded. -/
def mergedOutput (st : PostOrderHandlerState) (h : RegisteredHandler)
    (handlerRun : OrderKind → Order → Except SdkError Unit)
    (params : PostOrderReq) (sig : List Nat) (sp : SplitSig) : HandleOutput :=
  let newOrder : Order :=
    { params.order with data :=
      { params.order.data with
        signature := some sig
        v := some sp.v
        r := some sp.r
        s := some sp.s } }
  let hres := handlerRun h.kind newOrder
  { effects := [HandleEffect.handlerCall h.kind newOrder]
    result := Except.ok none
    finalParams := { params with order := newOrder }
    finalHandlers := st.handlers }

/-- The shared failure path when `splitSignature` rejects the supplied
signature: `InvalidParamError('signature', 'invalid signature ' + signature)`,
before any handler invocation. -/
def splitFailOutput (st : PostOrderHandlerState) (params : PostOrderReq)
    (sig : List Nat) : HandleOutput :=
  { effects := []
    result := Except.error (SdkError.invalidParam "signature" ("invalid signature " ++ toString sig))
    finalParams := params
    finalHandlers := st.handlers }

/-- The shared path when no signature is supplied: the order is forwarded to
the handler untouched (again without awaiting). -/
def noSigOutput (st : PostOrderHandlerState) (h : RegisteredHandler)
    (handlerRun : OrderKind → Order → Except SdkError Unit)
    (params : PostOrderReq) : HandleOutput :=
  let hres := handlerRun h.kind params.order
  { effects := [HandleEffect.handlerCall h.kind params.order]
    result := Except.ok none
    finalParams := params
    finalHandlers := st.handlers }

/-- `PostOrderHandler.handle` (src/unnamed/part_001, lines 37-104).
`client` is the injected HTTP client (used by the Blur branch through
`post`); `handlerRun` is the network behaviour of the registered protocol
handlers. Branch structure follows the source line by line:
Blur → backend post; unregistered kind → `InvalidParamError('order.kind', …)`;
`v3` → split-merge; `v4` → split, then either the Seaport bulk-proof
encoding (when `bulkData?.kind === 'seaport-v1.5'`) or the same merge as
`v3`; any other version → `InvalidParamError('extraArgs.version', …)`. -/
def PostOrderHandler.handle (st : PostOrderHandlerState)
    (client : String → PostOrderReq → List (String × String) → StatusResponse String)
    (handlerRun : OrderKind → Order → Except SdkError Unit)
    (params : PostOrderReq) : HandleOutput :=
  if params.order.kind = OrderKind.blur then
    let pr := PostOrderHandler.post st.config client "/post-order/v1" params
    { effects := [HandleEffect.httpPost pr.1]
      result := match pr.2 with
        | Except.ok _ => Except.ok (some "blur")
        | Except.error e => Except.error e
      finalParams := params
      finalHandlers := st.handlers }
  else
    match st.handlers.lookup params.order.kind with
    | none =>
        { effects := []
          result := Except.error (SdkError.invalidParam "order.kind"
            ("unsupported orderKind " ++ params.order.kind.str))
          finalParams := params
          finalHandlers := st.handlers }
    | some h =>
        if params.extraArgsVersion = "v3" then
          match params.signature with
          | none => noSigOutput st h handlerRun params
          | some sig =>
            match splitSignature sig with
            | none => splitFailOutput st params sig
            | some sp => mergedOutput st h handlerRun params sig sp
        else if params.extraArgsVersion = "v4" then
          match params.signature with
          | none => noSigOutput st h handlerRun params
          | some sig =>
            match splitSignature sig with
            | none => splitFailOutput st params sig
            | some sp =>
              match params.bulkData with
              | some bd =>
                if bd.kind = "seaport-v1.5" then
                  let newOrder : Order :=
                    { params.order with data :=
                      { params.order.data with
                        signature := some (encodeBulkOrderProofAndSignature
                          bd.data.orderIndex bd.data.merkleProof sig) } }
                  let hres := handlerRun h.kind newOrder
                  { effects := [HandleEffect.handlerCall h.kind newOrder]
                    result := Except.ok none
                    finalParams := { params with order := newOrder }
                    finalHandlers := st.handlers }
                else mergedOutput st h handlerRun params sig sp
              | none => mergedOutput st h handlerRun params sig sp
        else
          { effects := []
            result := Except.error (SdkError.invalidParam "extraArgs.version"
              ("unsupported version " ++ params.extraArgsVersion))
            finalParams := params
            finalHandlers := st.handlers }

/-- Boolean success test on a per-item outcome. -/
def isOkB {ε α : Type} : Except ε α → Bool
  | Except.ok _ => true
  | Except.error _ => false

/-- Modelled from the spec: `ListingIndexerStable.bulkListing` is not under
src/ (only its test, src/unnamed/part_000, is). Per the spec (§4.1, §7, §8)
it throws only for validation errors that apply to the whole call (empty
input); otherwise each item is processed independently (`processItem`
abstracts the per-item sign + post pipeline, whose outcome for index `i` of
the input array is `processItem i order`), and the call returns the
index-aligned pair `[successIndexes, failIndexes]` of per-item outcomes. -/
def bulkListing (processItem : Nat → Order → Except SdkError Unit)
    (orders : List Order) : Except SdkError (List Nat × List Nat) :=
  if orders.isEmpty then
    Except.error (SdkError.invalidParam "orders" "orders should not be empty")
  else
    Except.ok
      ((List.range orders.length).filter fun i => isOkB (processItem i (orders.getD i default)),
       (List.range orders.length).filter fun i => !isOkB (processItem i (orders.getD i default)))

/-- `NFTBaseInfo` of src/src/core/interface.ts. -/
structure NFTBaseInfo where
  contract : Option String := none
  tokenId : Option String := none
deriving DecidableEq, Repr

/-- Modelled from the spec: `ListingIndexerStable.prepareListing` is not
under src/ (only its test, src/src/core/v1/__test__/prepare.test.ts, is).
Per the spec (§4.1, §8) it fails with `InvalidParamError` when `nfts` is
empty — the test expects the thrown message
"The param 'nfts' is invalid. nfts should not be empty" — and otherwise
classifies each NFT against live listing state, abstracted here by the
`classify` oracle. -/
def prepareListing {γ : Type} (classify : NFTBaseInfo → γ)
    (nfts : List NFTBaseInfo) : Except SdkError (List γ) :=
  if nfts.isEmpty then
    Except.error (SdkError.invalidParam "nfts" "nfts should not be empty")
  else
    Except.ok (nfts.map classify)

/-! Concrete sample inputs used by the closed witness and counterexample
theorems. -/

def cfgC : ListingIndexerConfig :=
  { apiKey := "k0", openSeaApiKeyConfig := some "os-key" }

def stC : PostOrderHandlerState := PostOrderHandler.new cfgC

def clientC : String → PostOrderReq → List (String × String) → StatusResponse String :=
  fun _ _ _ => { code := "SUCCESS", msg := "", data := "ok" }

def hrC : OrderKind → Order → Except SdkError Unit := fun _ _ => Except.ok ()

def seaHandlerC : RegisteredHandler := { kind := OrderKind.seaportV15, apiKeyConfig := "os-key" }

def sig65C : List Nat := List.replicate 32 2 ++ List.replicate 32 3 ++ [27]

def orderC : Order := { kind := OrderKind.seaportV15, data := { rest := [("price", "1")] } }

def paramsV3C : PostOrderReq :=
  { order := orderC, signature := some sig65C, extraArgsVersion := "v3" }

def mergedOrderC : Order :=
  { orderC with data := { orderC.data with
      signature := some sig65C
      v := some 27
      r := some (List.replicate 32 2)
      s := some (List.replicate 32 3) } }

def paramsLooksC : PostOrderReq :=
  { order := { kind := OrderKind.looksRareV2, data := {} }, extraArgsVersion := "v3" }

def paramsV9C : PostOrderReq :=
  { order := orderC, signature := some sig65C, extraArgsVersion := "v9" }

def paramsBlurC : PostOrderReq :=
  { order := { kind := OrderKind.blur, data := {} }, extraArgsVersion := "v4" }

def proofC : List (List Nat) := [List.replicate 32 5]

def bulkReqC : PostOrderReq :=
  { order := orderC
    signature := some sig65C
    bulkData := some { kind := "seaport-v1.5", data := { orderIndex := 1, merkleProof := proofC } }
    extraArgsVersion := "v4" }

def bulkMergedOrderC : Order :=
  { orderC with data := { orderC.data with
      signature := some (encodeBulkOrderProofAndSignature 1 proofC sig65C) } }

def bulkReqBadSigC : PostOrderReq :=
  { order := orderC
    signature := some [1]
    bulkData := some { kind := "seaport-v1.5", data := { orderIndex := 0, merkleProof := [] } }
    extraArgsVersion := "v4" }

def orderBadC : Order := { kind := OrderKind.looksRareV2, data := {} }

def ordersC : List Order := [orderC, orderBadC, orderC]

def processC : Nat → Order → Except SdkError Unit := fun _ o =>
  if o.kind = OrderKind.seaportV15 then Except.ok ()
  else Except.error (SdkError.invalidParam "order.kind" "unsupported orderKind")

def malformedC : Order → Bool := fun o => o.kind != OrderKind.seaportV15

/-- Projection: the request `post` hands to the injected client. -/
theorem post_request {α β : Type} (config : ListingIndexerConfig)
    (client : String → α → List (String × String) → StatusResponse β)
    (path : String) (params : α) :
    (PostOrderHandler.post config client path params).1
      = { url := PostOrderHandler.url config ++ path, body := params,
          headers := PostOrderHandler.headers config } := rfl

/-- Projection: the outcome `post` produces from the response envelope. -/
theorem post_outcome {α β : Type} (config : ListingIndexerConfig)
    (client : String → α → List (String × String) → StatusResponse β)
    (path : String) (params : α) :
    (PostOrderHandler.post config client path params).2
      = (if (client (PostOrderHandler.url config ++ path) params
              (PostOrderHandler.headers config)).code = "SUCCESS"
         then Except.ok (client (PostOrderHandler.url config ++ path) params
              (PostOrderHandler.headers config)).data
         else Except.error (SdkError.aggregatorApi
              (client (PostOrderHandler.url config ++ path) params
                (PostOrderHandler.headers config)).msg
              (client (PostOrderHandler.url config ++ path) params
                (PostOrderHandler.headers config)).code
              path)) := rfl

/-- C5: for every PostOrderReq whose order.kind is not Blur and has no
handler registered in the dispatcher's kind-to-handler map, `handle` fails
with `InvalidParamError('order.kind', …)`, performing no signature
processing (the request is returned untouched) and no network call (no
effect is recorded). -/
theorem unregistered_kind_invalid_param
    (st : PostOrderHandlerState)
    (client : String → PostOrderReq → List (String × String) → StatusResponse String)
    (handlerRun : OrderKind → Order → Except SdkError Unit)
    (params : PostOrderReq)
    (hk : params.order.kind ≠ OrderKind.blur)
    (hreg : st.handlers.lookup params.order.kind = none) :
    PostOrderHandler.handle st client handlerRun params =
      { effects := []
        result := Except.error (SdkError.invalidParam "order.kind"
          ("unsupported orderKind " ++ params.order.kind.str))
        finalParams := params
        finalHandlers := st.handlers } := by
  simp [PostOrderHandler.handle, if_neg hk, hreg]

theorem unregistered_kind_invalid_param_witness :
    PostOrderHandler.handle stC clientC hrC paramsLooksC =
      { effects := []
        result := Except.error (SdkError.invalidParam "order.kind"
          "unsupported orderKind looks-rare-v2")
        finalParams := paramsLooksC
        finalHandlers := stC.handlers } :=
  (unregistered_kind_invalid_param stC clientC hrC paramsLooksC (by decide) (by decide)).trans
    (by decide)

/-- C6: for every PostOrderReq with a non-Blur, registered order.kind whose
extraArgs.version is neither 'v3' nor 'v4', `handle` fails with
`InvalidParamError('extraArgs.version', 'unsupported version ' + version)`
and no handler is invoked (no effect is recorded, the request is untouched). -/
theorem unsupported_version_invalid_param
    (st : PostOrderHandlerState)
    (client : String → PostOrderReq → List (String × String) → StatusResponse String)
    (handlerRun : OrderKind → Order → Except SdkError Unit)
    (params : PostOrderReq) (h : RegisteredHandler)
    (hk : params.order.kind ≠ OrderKind.blur)
    (hreg : st.handlers.lookup params.order.kind = some h)
    (hv3 : params.extraArgsVersion ≠ "v3")
    (hv4 : params.extraArgsVersion ≠ "v4") :
    PostOrderHandler.handle st client handlerRun params =
      { effects := []
        result := Except.error (SdkError.invalidParam "extraArgs.version"
          ("unsupported version " ++ params.extraArgsVersion))
        finalParams := params
        finalHandlers := st.handlers } := by
  simp [PostOrderHandler.handle, if_neg hk, hreg, if_neg hv3, if_neg hv4]

theorem unsupported_version_invalid_param_witness :
    PostOrderHandler.handle stC clientC hrC paramsV9C =
      { effects := []
        result := Except.error (SdkError.invalidParam "extraArgs.version"
          "unsupported version v9")
        finalParams := paramsV9C
        finalHandlers := stC.handlers } :=
  (unsupported_version_invalid_param stC clientC hrC paramsV9C seaHandlerC
    (by decide) (by decide) (by decide) (by decide)).trans (by decide)

/-- C3: for every PostOrderReq with extraArgs.version = 'v3' and a
registered handler for its non-Blur order.kind: when a signature is present
and splits into `(v, r, s)`, `handle` merges all four representations
(`signature`, `v`, `r`, `s`) into order.data and then invokes the handler
on the merged order; when splitting the present signature fails, `handle`
fails with `InvalidParamError('signature', …)` and the handler is not
invoked. -/
theorem v3_signature_merge_and_split_failure
    (st : PostOrderHandlerState)
    (client : String → PostOrderReq → List (String × String) → StatusResponse String)
    (handlerRun : OrderKind → Order → Except SdkError Unit)
    (params : PostOrderReq) (h : RegisteredHandler)
    (hk : params.order.kind ≠ OrderKind.blur)
    (hreg : st.handlers.lookup params.order.kind = some h)
    (hv : params.extraArgsVersion = "v3") :
    (∀ sig sp, params.signature = some sig → splitSignature sig = some sp →
      PostOrderHandler.handle st client handlerRun params =
        { effects := [HandleEffect.handlerCall h.kind
            { params.order with data := { params.order.data with
                signature := some sig, v := some sp.v, r := some sp.r, s := some sp.s } }]
          result := Except.ok none
          finalParams := { params with order := { params.order with data :=
            { params.order.data with
                signature := some sig, v := some sp.v, r := some sp.r, s := some sp.s } } }
          finalHandlers := st.handlers }) ∧
    (∀ sig, params.signature = some sig → splitSignature sig = none →
      PostOrderHandler.handle st client handlerRun params =
        { effects := []
          result := Except.error (SdkError.invalidParam "signature"
            ("invalid signature " ++ toString sig))
          finalParams := params
          finalHandlers := st.handlers }) := by
  constructor
  · intro sig sp hsig hsp
    simp [PostOrderHandler.handle, if_neg hk, hreg, hv, hsig, hsp, mergedOutput]
  · intro sig hsig hsp
    simp [PostOrderHandler.handle, if_neg hk, hreg, hv, hsig, hsp, splitFailOutput]

theorem v3_signature_merge_and_split_failure_witness :
    PostOrderHandler.handle stC clientC hrC paramsV3C =
      { effects := [HandleEffect.handlerCall OrderKind.seaportV15 mergedOrderC]
        result := Except.ok none
        finalParams := { paramsV3C with order := mergedOrderC }
        finalHandlers := stC.handlers } :=
  (((v3_signature_merge_and_split_failure stC clientC hrC paramsV3C seaHandlerC
      (by decide) (by decide) rfl).1
    sig65C { v := 27, r := List.replicate 32 2, s := List.replicate 32 3 }
    rfl (by decide))).trans (by decide)

/-- C4: for every PostOrderReq whose order.kind is Blur, `handle` sends the
request, untouched, to the aggregator backend's generic '/post-order/v1'
endpoint (through `post`, so at the backend base URL with the backend
headers); no protocol handler is ever invoked and the version branching is
never entered — for every extraArgs.version no handler call is recorded and
no `InvalidParamError('extraArgs.version', …)` is produced; the outcome is
decided solely by the response envelope. -/
theorem blur_routes_to_backend_post
    (st : PostOrderHandlerState)
    (client : String → PostOrderReq → List (String × String) → StatusResponse String)
    (handlerRun : OrderKind → Order → Except SdkError Unit)
    (params : PostOrderReq)
    (hk : params.order.kind = OrderKind.blur) :
    ((PostOrderHandler.handle st client handlerRun params).effects
        = [HandleEffect.httpPost
            { url := PostOrderHandler.url st.config ++ "/post-order/v1"
              body := params
              headers := PostOrderHandler.headers st.config }]) ∧
    ((PostOrderHandler.handle st client handlerRun params).finalParams = params) ∧
    (∀ v k o, HandleEffect.handlerCall k o ∉
        (PostOrderHandler.handle st client handlerRun
          { params with extraArgsVersion := v }).effects) ∧
    (∀ v s, (PostOrderHandler.handle st client handlerRun
          { params with extraArgsVersion := v }).result
        ≠ Except.error (SdkError.invalidParam "extraArgs.version" s)) ∧
    ((client (PostOrderHandler.url st.config ++ "/post-order/v1") params
        (PostOrderHandler.headers st.config)).code = "SUCCESS" →
      (PostOrderHandler.handle st client handlerRun params).result
        = Except.ok (some "blur")) ∧
    ((client (PostOrderHandler.url st.config ++ "/post-order/v1") params
        (PostOrderHandler.headers st.config)).code ≠ "SUCCESS" →
      (PostOrderHandler.handle st client handlerRun params).result
        = Except.error (SdkError.aggregatorApi
            (client (PostOrderHandler.url st.config ++ "/post-order/v1") params
              (PostOrderHandler.headers st.config)).msg
            (client (PostOrderHandler.url st.config ++ "/post-order/v1") params
              (PostOrderHandler.headers st.config)).code
            "/post-order/v1")) := by
  refine ⟨?_, ?_, ?_, ?_, ?_, ?_⟩
  · simp [PostOrderHandler.handle, hk, post_request]
  · simp [PostOrderHandler.handle, hk]
  · intro v k o
    simp [PostOrderHandler.handle, hk]
  · intro v s
    simp only [PostOrderHandler.handle, hk, if_pos, post_outcome]
    split
    · simp
    · rename_i x e heq
      split at heq
      · simp_all
      · injection heq with h2
        rw [← h2]
        simp
  · intro hc
    simp [PostOrderHandler.handle, hk, post_outcome, hc]
  · intro hc
    simp [PostOrderHandler.handle, hk, post_outcome, if_neg hc]

theorem blur_routes_to_backend_post_witness :
    (PostOrderHandler.handle stC clientC hrC paramsBlurC).effects
        = [HandleEffect.httpPost
            { url := "https://data-api.nftgo.io/aggregator/v1/eth/nft/post-order/v1"
              body := paramsBlurC
              headers := [("X-API-KEY", "k0"), ("X-FROM", "js_sdk")] }] ∧
    (PostOrderHandler.handle stC clientC hrC paramsBlurC).result = Except.ok (some "blur") := by
  have h := blur_routes_to_backend_post stC clientC hrC paramsBlurC (by decide)
  exact ⟨h.1.trans (by decide), h.2.2.2.2.1 (by decide)⟩

/-- C1 (amended): for every 'v4' PostOrderReq with a registered non-Blur
kind: when a present signature splits successfully and
bulkData.kind = 'seaport-v1.5', `handle` replaces order.data.signature —
and only that field — with the packed
`encodeBulkOrderProofAndSignature(orderIndex, merkleProof, signature)` and
invokes the handler on the updated order; when splitting the present
signature fails, `handle` fails with `InvalidParamError('signature', …)`
exactly as 'v3' does; and every 'v4' request whose bulkData is absent or of
any other kind behaves exactly as the 'v3' branch on the same request
(same effects, same result, same final order). -/
theorem v4_bulk_encodes_proof_and_nonbulk_matches_v3
    (st : PostOrderHandlerState)
    (client : String → PostOrderReq → List (String × String) → StatusResponse String)
    (handlerRun : OrderKind → Order → Except SdkError Unit)
    (params : PostOrderReq) (h : RegisteredHandler)
    (hk : params.order.kind ≠ OrderKind.blur)
    (hreg : st.handlers.lookup params.order.kind = some h)
    (hv : params.extraArgsVersion = "v4") :
    (∀ sig sp bd, params.signature = some sig → splitSignature sig = some sp →
        params.bulkData = some bd → bd.kind = "seaport-v1.5" →
      PostOrderHandler.handle st client handlerRun params =
        { effects := [HandleEffect.handlerCall h.kind
            { params.order with data := { params.order.data with
                signature := some (encodeBulkOrderProofAndSignature
                  bd.data.orderIndex bd.data.merkleProof sig) } }]
          result := Except.ok none
          finalParams := { params with order := { params.order with data :=
            { params.order.data with
                signature := some (encodeBulkOrderProofAndSignature
                  bd.data.orderIndex bd.data.merkleProof sig) } } }
          finalHandlers := st.handlers }) ∧
    (∀ sig, params.signature = some sig → splitSignature sig = none →
      PostOrderHandler.handle st client handlerRun params =
        { effects := []
          result := Except.error (SdkError.invalidParam "signature"
            ("invalid signature " ++ toString sig))
          finalParams := params
          finalHandlers := st.handlers }) ∧
    ((∀ bd, params.bulkData = some bd → bd.kind ≠ "seaport-v1.5") →
      ((PostOrderHandler.handle st client handlerRun params).effects
        = (PostOrderHandler.handle st client handlerRun
            { params with extraArgsVersion := "v3" }).effects) ∧
      ((PostOrderHandler.handle st client handlerRun params).result
        = (PostOrderHandler.handle st client handlerRun
            { params with extraArgsVersion := "v3" }).result) ∧
      ((PostOrderHandler.handle st client handlerRun params).finalParams.order
        = (PostOrderHandler.handle st client handlerRun
            { params with extraArgsVersion := "v3" }).finalParams.order)) := by
  refine ⟨?_, ?_, ?_⟩
  · intro sig sp bd hsig hsp hbd hbk
    simp [PostOrderHandler.handle, if_neg hk, hreg, hv, hsig, hsp, hbd, hbk]
  · intro sig hsig hsp
    simp [PostOrderHandler.handle, if_neg hk, hreg, hv, hsig, hsp, splitFailOutput]
  · intro hnb
    cases hsig : params.signature with
    | none =>
      simp [PostOrderHandler.handle, if_neg hk, hreg, hv, hsig, noSigOutput]
    | some sig =>
      cases hsp : splitSignature sig with
      | none =>
        simp [PostOrderHandler.handle, if_neg hk, hreg, hv, hsig, hsp, splitFailOutput]
      | some sp =>
        cases hbd : params.bulkData with
        | none =>
          simp [PostOrderHandler.handle, if_neg hk, hreg, hv, hsig, hsp, hbd, mergedOutput]
        | some bd =>
          have hbk := hnb bd hbd
          simp [PostOrderHandler.handle, if_neg hk, hreg, hv, hsig, hsp, hbd, if_neg hbk,
            mergedOutput]

theorem v4_bulk_encodes_proof_and_nonbulk_matches_v3_witness :
    PostOrderHandler.handle stC clientC hrC bulkReqC =
      { effects := [HandleEffect.handlerCall OrderKind.seaportV15 bulkMergedOrderC]
        result := Except.ok none
        finalParams := { bulkReqC with order := bulkMergedOrderC }
        finalHandlers := stC.handlers } :=
  ((v4_bulk_encodes_proof_and_nonbulk_matches_v3 stC clientC hrC bulkReqC seaHandlerC
      (by decide) (by decide) rfl).1
    sig65C { v := 27, r := List.replicate 32 2, s := List.replicate 32 3 }
    { kind := "seaport-v1.5", data := { orderIndex := 1, merkleProof := proofC } }
    rfl (by decide) rfl rfl).trans (by decide)

/-- C1 as literally stated fails on a present but malformed signature: for
this 'v4' request with bulkData.kind = 'seaport-v1.5' and the present
signature [1], `handle` does not replace order.data.signature with the
packed encoding; it fails with `InvalidParamError('signature', …)` and
leaves the order untouched. -/
theorem v4_bulk_claim_fails_on_malformed_signature :
    (PostOrderHandler.handle stC clientC hrC bulkReqBadSigC).finalParams.order.data.signature
        ≠ some (encodeBulkOrderProofAndSignature 0 [] [1]) ∧
    (PostOrderHandler.handle stC clientC hrC bulkReqBadSigC).result
        = Except.error (SdkError.invalidParam "signature" "invalid signature [1]") := by
  constructor
  · decide
  · decide

/-- Reassociation of the URL concatenation: the piecewise concatenation of
the source's `url` getter equals the flat format of the spec. -/
theorem url_flat (b c p : String) :
    b ++ "/aggregator" ++ "/v1" ++ "/" ++ c ++ "/nft" ++ p
      = b ++ "/aggregator/v1/" ++ c ++ "/nft" ++ p := by
  have h1 : b ++ "/aggregator" ++ "/v1" ++ "/" = b ++ "/aggregator/v1/" := by
    rw [String.append_assoc, String.append_assoc]
    rfl
  rw [h1]

/-- C7 as stated fails on the code: the 'X-FROM' header value the code
sends is 'js_sdk', not 'sdk-tag'. -/
theorem post_xfrom_header_is_js_sdk_not_sdk_tag :
    ((PostOrderHandler.post cfgC clientC "/post-order/v1" paramsBlurC).1.headers.lookup "X-FROM"
        = some "js_sdk") ∧ some "js_sdk" ≠ some ("sdk-tag" : String) := by
  constructor
  · rfl
  · decide

/-- C7 (amended): for every path and params, `post` hands the injected
client the request at URL {baseUrl}/aggregator/v1/{chain}/nft{path} (with
the configured-or-default base URL and chain), body `params`, and headers
{'X-API-KEY': apiKey, 'X-FROM': 'js_sdk'}; given the response envelope
{code, msg, data}, it returns `data` exactly when code = 'SUCCESS' and
otherwise fails with an `AggregatorApiException` carrying (msg, code, path). -/
theorem post_url_headers_envelope {α β : Type}
    (config : ListingIndexerConfig)
    (client : String → α → List (String × String) → StatusResponse β)
    (path : String) (params : α) :
    ((PostOrderHandler.post config client path params).1.url
        = (config.baseUrl.getD BASE_URL) ++ "/aggregator/v1/"
            ++ (config.chain.getD EVMChain.eth).str ++ "/nft" ++ path) ∧
    ((PostOrderHandler.post config client path params).1.body = params) ∧
    ((PostOrderHandler.post config client path params).1.headers
        = [("X-API-KEY", config.apiKey), ("X-FROM", "js_sdk")]) ∧
    ((client (PostOrderHandler.url config ++ path) params
        (PostOrderHandler.headers config)).code = "SUCCESS" →
      (PostOrderHandler.post config client path params).2
        = Except.ok (client (PostOrderHandler.url config ++ path) params
            (PostOrderHandler.headers config)).data) ∧
    ((client (PostOrderHandler.url config ++ path) params
        (PostOrderHandler.headers config)).code ≠ "SUCCESS" →
      (PostOrderHandler.post config client path params).2
        = Except.error (SdkError.aggregatorApi
            (client (PostOrderHandler.url config ++ path) params
              (PostOrderHandler.headers config)).msg
            (client (PostOrderHandler.url config ++ path) params
              (PostOrderHandler.headers config)).code
            path)) := by
  refine ⟨?_, rfl, rfl, ?_, ?_⟩
  · show PostOrderHandler.url config ++ path = _
    unfold PostOrderHandler.url
    exact url_flat (config.baseUrl.getD BASE_URL) (config.chain.getD EVMChain.eth).str path
  · intro hc
    rw [post_outcome, if_pos hc]
  · intro hc
    rw [post_outcome, if_neg hc]

theorem post_url_headers_envelope_witness :
    ((PostOrderHandler.post cfgC clientC "/p" paramsBlurC).1.url
        = "https://data-api.nftgo.io/aggregator/v1/eth/nft/p") ∧
    ((PostOrderHandler.post cfgC clientC "/p" paramsBlurC).1.headers
        = [("X-API-KEY", "k0"), ("X-FROM", "js_sdk")]) ∧
    ((PostOrderHandler.post cfgC clientC "/p" paramsBlurC).2
        = Except.ok ("ok" : String)) := by
  have h := post_url_headers_envelope cfgC clientC "/p" paramsBlurC
  exact ⟨h.1.trans (by decide), h.2.2.1.trans (by decide), (h.2.2.2.1 rfl).trans rfl⟩

/-- Every branch of `handle` passes the handler map through unchanged: the
method only reads `this.handlers` (via `get`); the map is written in the
constructor alone. -/
theorem handle_preserves_handlers
    (st : PostOrderHandlerState)
    (client : String → PostOrderReq → List (String × String) → StatusResponse String)
    (handlerRun : OrderKind → Order → Except SdkError Unit)
    (params : PostOrderReq) :
    (PostOrderHandler.handle st client handlerRun params).finalHandlers = st.handlers := by
  unfold PostOrderHandler.handle
  repeat' split
  all_goals rfl

/-- C8: the dispatcher built from a `ListingIndexerConfig` registers a
handler for SeaportV15 / LooksRareV2 / X2Y2 exactly when the corresponding
API-key config is supplied, registers nothing for any other kind (Blur in
particular), and `handle` — the only operation that consults the map —
leaves the map exactly as the constructor built it. -/
theorem handler_registration_iff_config_and_immutable (config : ListingIndexerConfig) :
    (((PostOrderHandler.new config).handlers.lookup OrderKind.seaportV15).isSome
        = config.openSeaApiKeyConfig.isSome) ∧
    (((PostOrderHandler.new config).handlers.lookup OrderKind.looksRareV2).isSome
        = config.looksRareApiKeyConfig.isSome) ∧
    (((PostOrderHandler.new config).handlers.lookup OrderKind.x2y2).isSome
        = config.x2y2ApiKeyConfig.isSome) ∧
    ((PostOrderHandler.new config).handlers.lookup OrderKind.blur = none) ∧
    (∀ client handlerRun params,
      (PostOrderHandler.handle (PostOrderHandler.new config) client handlerRun
          params).finalHandlers
        = (PostOrderHandler.new config).handlers) := by
  refine ⟨?_, ?_, ?_, ?_, fun client handlerRun params =>
    handle_preserves_handlers _ _ _ _⟩ <;>
  · rcases config with ⟨a, b, c, os, lr, x2⟩
    cases os <;> cases lr <;> cases x2 <;> rfl

/-- C9 evaluated at its failing input: the source never awaits
`handler.handle(params.order)` (src/unnamed/part_001 line 67, flagged
'// TODO: need to await?'), so even when the handler's network call fails
the dispatcher's returned promise resolves: here the handler is invoked on
the merged order, its failure is discarded, and `handle` succeeds. -/
theorem handler_failure_not_propagated :
    (PostOrderHandler.handle stC clientC
        (fun _ _ => Except.error
          (SdkError.aggregatorApi "handler network call failed" "FAIL" "/seaport"))
        paramsV3C).result = Except.ok none ∧
    (PostOrderHandler.handle stC clientC
        (fun _ _ => Except.error
          (SdkError.aggregatorApi "handler network call failed" "FAIL" "/seaport"))
        paramsV3C).effects
      = [HandleEffect.handlerCall OrderKind.seaportV15 mergedOrderC] := by
  constructor <;> decide

/-- Filter length is monotone in the predicate along pointwise implication. -/
theorem filter_length_mono {α : Type} :
    ∀ (l : List α) (p q : α → Bool), (∀ a ∈ l, p a = true → q a = true) →
      (l.filter p).length ≤ (l.filter q).length := by
  intro l p q
  induction l with
  | nil => intro h; simp
  | cons a t ih =>
    intro h
    have iht := ih fun b hb hpb => h b (List.mem_cons_of_mem a hb) hpb
    cases hp : p a with
    | true =>
      have hq : q a = true := h a (List.mem_cons_self a t) hp
      simp only [List.filter_cons, hp, hq, if_pos, List.length_cons]
      exact Nat.succ_le_succ iht
    | false =>
      cases hq : q a with
      | true =>
        simp only [List.filter_cons, hp, hq, List.length_cons]
        exact Nat.le_succ_of_le iht
      | false =>
        simp only [List.filter_cons, hp, hq]
        exact iht

/-- C2: for every non-empty batch of N orders, `bulkListing` returns
`Except.ok (successIndexes, failIndexes)` — per-item failures are recorded,
never thrown — where the union of the two arrays is exactly {0..N-1}, their
intersection is empty, and whenever every malformed order's per-item
processing fails (e.g. bad order kind), the failure set has at least as
many elements as there are malformed input orders. -/
theorem bulkListing_partition_and_failure_bound
    (processItem : Nat → Order → Except SdkError Unit)
    (malformed : Order → Bool)
    (orders : List Order)
    (hne : orders ≠ [])
    (hmf : ∀ i, i < orders.length → malformed (orders.getD i default) = true →
      isOkB (processItem i (orders.getD i default)) = false) :
    ∃ succ fail,
      bulkListing processItem orders = Except.ok (succ, fail) ∧
      (∀ i, (i ∈ succ ∨ i ∈ fail) ↔ i < orders.length) ∧
      (∀ i, ¬(i ∈ succ ∧ i ∈ fail)) ∧
      ((List.range orders.length).filter
          (fun i => malformed (orders.getD i default))).length ≤ fail.length := by
  have hie : orders.isEmpty = false := by
    cases orders with
    | nil => exact absurd rfl hne
    | cons a t => rfl
  refine ⟨(List.range orders.length).filter
      (fun i => isOkB (processItem i (orders.getD i default))),
    (List.range orders.length).filter
      (fun i => !isOkB (processItem i (orders.getD i default))), ?_, ?_, ?_, ?_⟩
  · simp [bulkListing, hie]
  · intro i
    constructor
    · rintro (hi | hi) <;> exact List.mem_range.mp (List.mem_of_mem_filter hi)
    · intro hi
      cases hb : isOkB (processItem i (orders.getD i default)) with
      | true =>
        exact Or.inl (List.mem_filter.mpr ⟨List.mem_range.mpr hi, hb⟩)
      | false =>
        exact Or.inr (List.mem_filter.mpr ⟨List.mem_range.mpr hi,
          by simp only [hb, Bool.not_false]⟩)
  · intro i hi
    have h1 := (List.mem_filter.mp hi.1).2
    have h2 := (List.mem_filter.mp hi.2).2
    simp only [h1, Bool.not_true] at h2
    exact absurd h2 (by decide)
  · refine filter_length_mono _ _ _ ?_
    intro i hi hm
    have hilt : i < orders.length := List.mem_range.mp hi
    simp only [hmf i hilt hm, Bool.not_false]

theorem bulkListing_partition_and_failure_bound_witness :
    bulkListing processC ordersC = Except.ok ([0, 2], [1]) ∧
    (((List.range ordersC.length).filter
        (fun i => malformedC (ordersC.getD i default))).length ≤ ([1] : List Nat).length) := by
  have h := bulkListing_partition_and_failure_bound processC malformedC ordersC
    (by decide) (by decide)
  rcases h with ⟨succ, fail, h1, h2, h3, h4⟩
  have heq : (Except.ok (succ, fail) : Except SdkError (List Nat × List Nat))
      = Except.ok (([0, 2], [1]) : List Nat × List Nat) := h1.symm.trans (by decide)
  injection heq with hpair
  injection hpair with hs1 hf1
  refine ⟨by decide, ?_⟩
  rw [hf1] at h4
  exact h4

/-- C10: `prepareListing` on the empty input always fails, with the
`InvalidParamError` whose message is exactly
"The param 'nfts' is invalid. nfts should not be empty", and the outcome is
independent of the classification oracle — no classification or network
work feeds it. -/
theorem prepareListing_empty_fails {γ : Type} (classify classify2 : NFTBaseInfo → γ) :
    (prepareListing classify ([] : List NFTBaseInfo)
        = Except.error (SdkError.invalidParam "nfts" "nfts should not be empty")) ∧
    ((SdkError.invalidParam "nfts" "nfts should not be empty").message
        = "The param 'nfts' is invalid. nfts should not be empty") ∧
    (prepareListing classify ([] : List NFTBaseInfo)
        = prepareListing classify2 []) :=
  ⟨rfl, rfl, rfl⟩

theorem handler_registration_iff_config_and_immutable_witness :
    (((PostOrderHandler.new cfgC).handlers.lookup OrderKind.seaportV15).isSome = true) ∧
    (((PostOrderHandler.new cfgC).handlers.lookup OrderKind.looksRareV2).isSome = false) ∧
    ((PostOrderHandler.handle (PostOrderHandler.new cfgC) clientC hrC paramsV3C).finalHandlers
        = (PostOrderHandler.new cfgC).handlers) := by
  have h := handler_registration_iff_config_and_immutable cfgC
  exact ⟨h.1.trans (by decide), h.2.1.trans (by decide), h.2.2.2.2 clientC hrC paramsV3C⟩

theorem prepareListing_empty_fails_witness :
    prepareListing (fun _ => (0 : Nat)) ([] : List NFTBaseInfo)
      = Except.error (SdkError.invalidParam "nfts" "nfts should not be empty") :=
  (prepareListing_empty_fails (fun _ => (0 : Nat)) (fun _ => (1 : Nat))).1
